import Mathlib

/-!
Verification of the audio pipeline and generation orchestrator of the
Revelação de Hoje front-end (src/App.tsx). Byte sequences are modelled as
lists of naturals (each element produced by the code is < 256, coming from
a Uint8Array); audio samples are exact rationals; the two generative-AI
capabilities are modelled as explicit result-valued parameters.
-/

set_option autoImplicit false

namespace RevelacaoDeHoje

/-! ## PCM decoder (src/App.tsx, decodePcmData, lines 28-45) -/

/-- Reinterpretation of two consecutive bytes as one signed 16-bit
little-endian integer, as done by the Int16Array view over the byte
buffer. The mod keeps the value in 16 bits; for genuine bytes
(lo, hi < 256) it is the identity on lo + 256 * hi. -/
def toInt16 (lo hi : Nat) : Int :=
  let u := (lo + 256 * hi) % 65536
  if u < 32768 then (u : Int) else (u : Int) - 65536

/-- The int16 sample sequence obtained by viewing the byte buffer through
new Int16Array(data.buffer): consecutive byte pairs, little-endian. -/
def bytesToInt16 : List Nat → List Int
  | lo :: hi :: rest => toInt16 lo hi :: bytesToInt16 rest
  | _ => []

/-- decodePcmData (src/App.tsx lines 28-45) together with the error
behavior of the platform calls it makes. The Int16Array constructor
throws a RangeError when the byte length is odd. The source computes
frameCount = dataInt16.length / numChannels as a JS number and passes it
to ctx.createBuffer, whose length argument is a WebIDL unsigned long, so
a fractional frameCount is truncated; createBuffer throws
NotSupportedError when that length is zero (the Web Audio specification
requires a positive length), so fewer than one full frame of samples —
in particular the empty input — fails. Otherwise the loop writes index i
only for i below the buffer length (out-of-range Float32Array writes are
discarded), so the channel data holds the first
floor(samples / numChannels) frames, each sample
dataInt16[i * numChannels + channel] / 32768.0 with no special case for
-32768. Both failures surface as the logged decode error. -/
def decodePcmData (data : List Nat) (numChannels : Nat) : Option (List (List Rat)) :=
  if data.length % 2 ≠ 0 then none
  else
    let dataInt16 := bytesToInt16 data
    let frameCount := dataInt16.length / numChannels
    if frameCount = 0 then none
    else some ((List.range numChannels).map fun channel =>
      (List.range frameCount).map fun i =>
        ((dataInt16.getD (i * numChannels + channel) 0 : Rat) / 32768))

theorem bytesToInt16_length : ∀ l : List Nat, (bytesToInt16 l).length = l.length / 2
  | [] => rfl
  | [_] => by simp [bytesToInt16]
  | _ :: _ :: rest => by
      simp only [bytesToInt16, List.length_cons, bytesToInt16_length rest]
      omega

/-- C1 counterexample: the empty input satisfies every hypothesis of the
claim (even byte length, C = 1 divides N = 0, expected N / C = 0 frames),
yet the decoder fails instead of producing a zero-frame buffer:
createBuffer rejects a zero frame count. -/
theorem decodePcmData_rejects_empty :
    ([] : List Nat).length % 2 = 0 ∧ (1 : Nat) ∣ ([] : List Nat).length / 2 ∧
    decodePcmData ([] : List Nat) 1 = none := by
  refine ⟨rfl, ⟨0, rfl⟩, rfl⟩

/-- C1 amended: for raw PCM bytes holding N int16 little-endian samples
and channel count C dividing N, with at least one full frame present
(N / C at least 1 — createBuffer rejects a zero frame count, so in
particular the empty input fails instead), the decoder yields C channels
of N / C frames each, and the sample of channel c at frame i is
int16Sample[i * C + c] / 32768; the value 0 decodes to 0, 32767 to
32767 / 32768 and -32768 to -1, with no special-casing of -32768. -/
theorem decodePcmData_spec (data : List Nat) (C : Nat) (_hC : 0 < C)
    (h2 : data.length % 2 = 0) (hdvd : C ∣ data.length / 2)
    (hframes : 0 < data.length / 2 / C) :
    ∃ out, decodePcmData data C = some out ∧
      out.length = C ∧
      (∀ ch ∈ out, ch.length = data.length / 2 / C) ∧
      data.length / 2 / C * C = data.length / 2 ∧
      (∀ c i, c < C → i < data.length / 2 / C →
        (out.getD c []).getD i 0
          = ((bytesToInt16 data).getD (i * C + c) 0 : Rat) / 32768) ∧
      toInt16 0 0 = 0 ∧ toInt16 255 127 = 32767 ∧ toInt16 0 128 = -32768 := by
  refine ⟨_, by
      simp only [decodePcmData]
      rw [if_neg (by omega), if_neg (by rw [bytesToInt16_length]; omega)],
    ?_, ?_, ?_, ?_, by decide, by decide, by decide⟩
  · simp
  · intro ch hch
    simp only [List.mem_map, List.mem_range] at hch
    obtain ⟨c, _, rfl⟩ := hch
    simp [bytesToInt16_length]
  · exact Nat.div_mul_cancel hdvd
  · intro c i hc hi
    have hlen : (bytesToInt16 data).length / C = data.length / 2 / C := by
      rw [bytesToInt16_length]
    have hcb : c < ((List.range C).map fun channel =>
        (List.range ((bytesToInt16 data).length / C)).map fun i =>
          ((bytesToInt16 data).getD (i * C + channel) 0 : Rat) / 32768).length := by
      simpa using hc
    rw [List.getD_eq_getElem _ _ hcb]
    have hib : i < (bytesToInt16 data).length / C := by omega
    simp [List.getD_eq_getElem, hib]

/-- C2 counterexample: six zero bytes with numChannels = 2 have a byte
length that is not a multiple of 2 * numChannels, yet decodePcmData does
not fail: the Int16Array view succeeds (even byte length) and the
fractional frameCount 3 / 2 is truncated by createBuffer, so decoding
yields a buffer rather than an error. -/
theorem decodePcmData_no_divisibility_check :
    [0, 0, 0, 0, 0, 0].length % (2 * 2) ≠ 0 ∧
    (decodePcmData [0, 0, 0, 0, 0, 0] 2).isSome = true := by
  constructor
  · decide
  · rfl

/-- C2 amended: the decoder performs no divisibility validation against
the channel count. It fails exactly when the byte length is odd (the
Int16Array reinterpretation throws) or when the input holds less than one
full frame, that is floor(N / C) = 0 (createBuffer rejects a zero frame
count) — so the empty input, counted as a success by the claim, fails
too. Every nonempty input whose byte length is a multiple of
2 * numChannels succeeds with exactly N / C frames per channel; at the
fixed numChannels = 1 of this system a nonempty input fails exactly on
odd byte length, but for numChannels > 1 an even byte length that is not
a multiple of 2 * numChannels yet holds at least one full frame is not
rejected. -/
theorem decodePcmData_failure_iff (data : List Nat) (C : Nat) (hC : 0 < C) :
    (decodePcmData data C = none ↔
      data.length % 2 ≠ 0 ∨ data.length / 2 / C = 0) ∧
    (data.length % (2 * C) = 0 → data ≠ [] →
      ∃ out, decodePcmData data C = some out ∧ out.length = C ∧
        ∀ ch ∈ out, ch.length = data.length / 2 / C) := by
  constructor
  · simp only [decodePcmData, bytesToInt16_length]
    by_cases h1 : data.length % 2 ≠ 0
    · simp [h1]
    · rw [if_neg h1]
      by_cases h0 : data.length / 2 / C = 0
      · simp [h0, h1]
      · simp [h0, h1]
  · intro hmul hne
    have hdvd : 2 * C ∣ data.length := Nat.dvd_of_mod_eq_zero hmul
    have hdvd2 : 2 ∣ data.length := dvd_trans ⟨C, rfl⟩ hdvd
    have h2 : data.length % 2 = 0 := by omega
    have hpos : 0 < data.length := List.length_pos.mpr hne
    have hge : 2 * C ≤ data.length := Nat.le_of_dvd hpos hdvd
    have hCle : C ≤ data.length / 2 := by omega
    have hframes : 0 < data.length / 2 / C := Nat.div_pos hCle hC
    refine ⟨_, by
        simp only [decodePcmData]
        rw [if_neg (by omega), if_neg (by rw [bytesToInt16_length]; omega)],
      by simp, ?_⟩
    intro ch hch
    simp only [List.mem_map, List.mem_range] at hch
    obtain ⟨c, _, rfl⟩ := hch
    simp [bytesToInt16_length]

/-- C1 witness: the mono input 00 00 FF 7F 00 80 satisfies the hypotheses
and decodes to the three samples 0, 32767 / 32768 and -1. -/
theorem decodePcmData_spec_witness :
    (0 < 1 ∧ [0, 0, 255, 127, 0, 128].length % 2 = 0 ∧
      1 ∣ [0, 0, 255, 127, 0, 128].length / 2 ∧
      0 < [0, 0, 255, 127, 0, 128].length / 2 / 1) ∧
    (∃ out, decodePcmData [0, 0, 255, 127, 0, 128] 1 = some out ∧
      out.length = 1 ∧
      (∀ ch ∈ out, ch.length = [0, 0, 255, 127, 0, 128].length / 2 / 1) ∧
      [0, 0, 255, 127, 0, 128].length / 2 / 1 * 1 = [0, 0, 255, 127, 0, 128].length / 2 ∧
      (∀ c i, c < 1 → i < [0, 0, 255, 127, 0, 128].length / 2 / 1 →
        (out.getD c []).getD i 0
          = ((bytesToInt16 [0, 0, 255, 127, 0, 128]).getD (i * 1 + c) 0 : Rat) / 32768) ∧
      toInt16 0 0 = 0 ∧ toInt16 255 127 = 32767 ∧ toInt16 0 128 = -32768) ∧
    decodePcmData [0, 0, 255, 127, 0, 128] 1 = some [[0, 32767 / 32768, -1]] := by
  refine ⟨⟨by decide, by decide, by decide, by decide⟩, ?_, ?_⟩
  · exact decodePcmData_spec [0, 0, 255, 127, 0, 128] 1 (by decide) (by decide) (by decide)
      (by decide)
  · norm_num [decodePcmData, bytesToInt16, toInt16, List.range_succ]

/-- C2 witness: at numChannels = 1, the odd three-byte input fails and
satisfies the failure characterization; a two-byte input at
numChannels = 2 truncates to a zero frame count and also fails. -/
theorem decodePcmData_failure_iff_witness :
    (0 < 1) ∧
    ((decodePcmData [1, 2, 3] 1 = none ↔
        [1, 2, 3].length % 2 ≠ 0 ∨ [1, 2, 3].length / 2 / 1 = 0) ∧
      ([1, 2, 3].length % (2 * 1) = 0 → [1, 2, 3] ≠ [] →
        ∃ out, decodePcmData [1, 2, 3] 1 = some out ∧ out.length = 1 ∧
          ∀ ch ∈ out, ch.length = [1, 2, 3].length / 2 / 1)) ∧
    decodePcmData [1, 2, 3] 1 = none ∧
    decodePcmData [1, 2] 2 = none := by
  refine ⟨by decide, decodePcmData_failure_iff [1, 2, 3] 1 (by decide), rfl, rfl⟩

/-! ## WAV encoder (src/App.tsx, pcmToWav, lines 120-165) -/

/-- DataView setUint16 with littleEndian = true: the two bytes of the
value, least significant first (the value is taken modulo 2 ^ 16). -/
def setUint16LE (n : Nat) : List Nat :=
  [n % 256, n / 256 % 256]

/-- DataView setUint32 with littleEndian = true: the four bytes of the
value, least significant first (the value is taken modulo 2 ^ 32). -/
def setUint32LE (n : Nat) : List Nat :=
  [n % 256, n / 256 % 256, n / 65536 % 256, n / 16777216 % 256]

/-- The 44-byte header written into the DataView by pcmToWav, in offset
order: RIFF, fileSize = 36 + dataSize, WAVE, fmt-space, subchunk1Size 16,
audioFormat 1, numChannels, sampleRate, byteRate, blockAlign,
bitsPerSample, data, dataSize. The byte values 82, 73, 70, 70 etc. are the
char codes written by writeString. -/
def wavHeader (dataSize sampleRate numChannels bitsPerSample : Nat) : List Nat :=
  [82, 73, 70, 70] ++ setUint32LE (36 + dataSize) ++
  [87, 65, 86, 69] ++
  [102, 109, 116, 32] ++ setUint32LE 16 ++ setUint16LE 1 ++
  setUint16LE numChannels ++ setUint32LE sampleRate ++
  setUint32LE (sampleRate * numChannels * (bitsPerSample / 8)) ++
  setUint16LE (numChannels * (bitsPerSample / 8)) ++
  setUint16LE bitsPerSample ++
  [100, 97, 116, 97] ++ setUint32LE dataSize

/-- pcmToWav (src/App.tsx lines 120-165), success path: the output blob is
the 44-byte header followed by the PCM bytes, unmodified. The source
computes bitsPerSample / 8 as a JS number; at the only used value 16 (and
any multiple of 8) this agrees with natural division. -/
def pcmToWav (pcmData : List Nat) (sampleRate numChannels bitsPerSample : Nat) : List Nat :=
  wavHeader pcmData.length sampleRate numChannels bitsPerSample ++ pcmData

/-- Little-endian u32 read at a byte offset, for stating header facts. -/
def readU32LE (bytes : List Nat) (off : Nat) : Nat :=
  bytes.getD off 0 + 256 * bytes.getD (off + 1) 0 +
  65536 * bytes.getD (off + 2) 0 + 16777216 * bytes.getD (off + 3) 0

/-- Little-endian u16 read at a byte offset. -/
def readU16LE (bytes : List Nat) (off : Nat) : Nat :=
  bytes.getD off 0 + 256 * bytes.getD (off + 1) 0

theorem u32LE_parts (n : Nat) (h : n < 4294967296) :
    n % 256 + 256 * (n / 256 % 256) + 65536 * (n / 65536 % 256) +
      16777216 * (n / 16777216 % 256) = n := by omega

theorem u16LE_parts (n : Nat) (h : n < 65536) :
    n % 256 + 256 * (n / 256 % 256) = n := by omega

theorem wavHeader_cons (D sr ch b : Nat) :
    wavHeader D sr ch b = [82, 73, 70, 70,
      (36 + D) % 256, (36 + D) / 256 % 256, (36 + D) / 65536 % 256, (36 + D) / 16777216 % 256,
      87, 65, 86, 69, 102, 109, 116, 32,
      16, 0, 0, 0, 1, 0,
      ch % 256, ch / 256 % 256,
      sr % 256, sr / 256 % 256, sr / 65536 % 256, sr / 16777216 % 256,
      sr * ch * (b / 8) % 256, sr * ch * (b / 8) / 256 % 256,
      sr * ch * (b / 8) / 65536 % 256, sr * ch * (b / 8) / 16777216 % 256,
      ch * (b / 8) % 256, ch * (b / 8) / 256 % 256,
      b % 256, b / 256 % 256,
      100, 97, 116, 97,
      D % 256, D / 256 % 256, D / 65536 % 256, D / 16777216 % 256] := by
  simp [wavHeader, setUint32LE, setUint16LE]

/-- C3: for every PCM input of D bytes, the encoder output starts with a
fixed 44-byte header in the exact layout RIFF, fileSize = 36 + D (u32
little-endian at offsets 4 to 7), WAVE, fmt-space, subchunk1Size = 16,
audioFormat = 1, numChannels (offsets 22 to 23), sampleRate (offsets 24
to 27), byteRate = sampleRate * numChannels * bitsPerSample / 8,
blockAlign = numChannels * bitsPerSample / 8, bitsPerSample, data,
dataSize = D. -/
theorem pcmToWav_header_layout (pcmData : List Nat)
    (sampleRate numChannels bitsPerSample : Nat)
    (h8 : 8 ∣ bitsPerSample)
    (hD : 36 + pcmData.length < 4294967296)
    (hsr : sampleRate < 4294967296)
    (hch : numChannels < 65536)
    (hbps : bitsPerSample < 65536)
    (hbr : sampleRate * numChannels * (bitsPerSample / 8) < 4294967296)
    (hba : numChannels * (bitsPerSample / 8) < 65536) :
    (wavHeader pcmData.length sampleRate numChannels bitsPerSample).length = 44 ∧
    (pcmToWav pcmData sampleRate numChannels bitsPerSample).take 44
      = wavHeader pcmData.length sampleRate numChannels bitsPerSample ∧
    (pcmToWav pcmData sampleRate numChannels bitsPerSample).take 4 = [82, 73, 70, 70] ∧
    readU32LE (pcmToWav pcmData sampleRate numChannels bitsPerSample) 4
      = 36 + pcmData.length ∧
    ((pcmToWav pcmData sampleRate numChannels bitsPerSample).drop 8).take 4
      = [87, 65, 86, 69] ∧
    ((pcmToWav pcmData sampleRate numChannels bitsPerSample).drop 12).take 4
      = [102, 109, 116, 32] ∧
    readU32LE (pcmToWav pcmData sampleRate numChannels bitsPerSample) 16 = 16 ∧
    readU16LE (pcmToWav pcmData sampleRate numChannels bitsPerSample) 20 = 1 ∧
    readU16LE (pcmToWav pcmData sampleRate numChannels bitsPerSample) 22 = numChannels ∧
    readU32LE (pcmToWav pcmData sampleRate numChannels bitsPerSample) 24 = sampleRate ∧
    readU32LE (pcmToWav pcmData sampleRate numChannels bitsPerSample) 28
      = sampleRate * numChannels * bitsPerSample / 8 ∧
    readU16LE (pcmToWav pcmData sampleRate numChannels bitsPerSample) 32
      = numChannels * bitsPerSample / 8 ∧
    readU16LE (pcmToWav pcmData sampleRate numChannels bitsPerSample) 34 = bitsPerSample ∧
    ((pcmToWav pcmData sampleRate numChannels bitsPerSample).drop 36).take 4
      = [100, 97, 116, 97] ∧
    readU32LE (pcmToWav pcmData sampleRate numChannels bitsPerSample) 40
      = pcmData.length := by
  have hbr8 : sampleRate * numChannels * bitsPerSample / 8
      = sampleRate * numChannels * (bitsPerSample / 8) := Nat.mul_div_assoc _ h8
  have hba8 : numChannels * bitsPerSample / 8
      = numChannels * (bitsPerSample / 8) := Nat.mul_div_assoc _ h8
  refine ⟨?_, ?_, ?_, ?_, ?_, ?_, ?_, ?_, ?_, ?_, ?_, ?_, ?_, ?_, ?_⟩ <;>
    simp only [pcmToWav, wavHeader_cons, readU32LE, readU16LE, List.cons_append,
      List.nil_append, List.getD_cons_zero, List.getD_cons_succ, List.length_cons,
      List.length_nil, List.take_succ_cons, List.take_zero, List.drop_succ_cons,
      List.drop_zero, hbr8, hba8]
  all_goals omega

/-- C3 witness: at the system parameters sampleRate 24000, one channel,
16 bits per sample and the four-byte input 01 02 03 04, the header fields
read back as fileSize 40, numChannels 1, sampleRate 24000, byteRate 48000
and dataSize 4. -/
theorem pcmToWav_header_layout_witness :
    readU32LE (pcmToWav [1, 2, 3, 4] 24000 1 16) 4 = 40 ∧
    readU16LE (pcmToWav [1, 2, 3, 4] 24000 1 16) 22 = 1 ∧
    readU32LE (pcmToWav [1, 2, 3, 4] 24000 1 16) 24 = 24000 ∧
    readU32LE (pcmToWav [1, 2, 3, 4] 24000 1 16) 28 = 48000 ∧
    readU32LE (pcmToWav [1, 2, 3, 4] 24000 1 16) 40 = 4 := by
  have h := pcmToWav_header_layout [1, 2, 3, 4] 24000 1 16 (by decide) (by decide)
    (by decide) (by decide) (by decide) (by decide) (by decide)
  exact ⟨h.2.2.2.1, h.2.2.2.2.2.2.2.2.1, h.2.2.2.2.2.2.2.2.2.1,
    h.2.2.2.2.2.2.2.2.2.2.1, h.2.2.2.2.2.2.2.2.2.2.2.2.2.2⟩

/-- C4: for every RawAudioBytes input of even length the encoder output is
exactly the 44-byte header concatenated with the original PCM bytes
unmodified, so the data chunk (everything after byte offset 44) equals the
input byte for byte. -/
theorem pcmToWav_data_passthrough (pcmData : List Nat)
    (sampleRate numChannels bitsPerSample : Nat)
    (_heven : pcmData.length % 2 = 0) :
    pcmToWav pcmData sampleRate numChannels bitsPerSample
      = wavHeader pcmData.length sampleRate numChannels bitsPerSample ++ pcmData ∧
    (wavHeader pcmData.length sampleRate numChannels bitsPerSample).length = 44 ∧
    (pcmToWav pcmData sampleRate numChannels bitsPerSample).drop 44 = pcmData := by
  refine ⟨rfl, ?_, ?_⟩
  · simp [wavHeader_cons]
  · simp only [pcmToWav, wavHeader_cons, List.cons_append, List.nil_append,
      List.drop_succ_cons, List.drop_zero]

/-- C4 witness: the even-length input 0A 14 passes through unchanged after
the 44-byte header. -/
theorem pcmToWav_data_passthrough_witness :
    [10, 20].length % 2 = 0 ∧
    ((pcmToWav [10, 20] 24000 1 16
        = wavHeader [10, 20].length 24000 1 16 ++ [10, 20]) ∧
      (wavHeader [10, 20].length 24000 1 16).length = 44 ∧
      (pcmToWav [10, 20] 24000 1 16).drop 44 = [10, 20]) :=
  ⟨by decide, pcmToWav_data_passthrough [10, 20] 24000 1 16 (by decide)⟩

/-! ## Playback clock and transport (src/App.tsx, useAudioPlayer, lines 47-117)

The hook state: isPlaying, duration and currentTime are React state,
audioBufferRef holds the decoded buffer (modelled by its duration),
sourceRef holds the active source (modelled by the offset it was started
at), startTimeRef the recorded start instant, timerRef the progress
sampler. Times are rationals standing for the AudioContext clock in
seconds. -/

structure PlayerState where
  isPlaying : Bool
  duration : Rat
  currentTime : Rat
  buffer : Option Rat
  source : Option Rat
  startTime : Rat
  timerOn : Bool
deriving DecidableEq

/-- Initial hook state: nothing loaded, nothing playing. -/
def initialPlayerState : PlayerState :=
  { isPlaying := false
    duration := 0
    currentTime := 0
    buffer := none
    source := none
    startTime := 0
    timerOn := false }

/-- play (lines 81-105): no-op when no buffer is loaded or already
playing; otherwise creates a source started at offset currentTime,
records startTime = now - currentTime, sets isPlaying and starts the
progress sampler. -/
def play (now : Rat) (s : PlayerState) : PlayerState :=
  if s.buffer = none ∨ s.isPlaying then s
  else { s with
          source := some s.currentTime
          startTime := now - s.currentTime
          isPlaying := true
          timerOn := true }

/-- pause (lines 107-114): no-op unless playing with an active source;
otherwise stops and releases the source, clears the sampler and leaves
currentTime untouched. -/
def pause (s : PlayerState) : PlayerState :=
  if ¬ s.isPlaying ∨ s.source = none then s
  else { s with source := none, isPlaying := false, timerOn := false }

/-- Progress sampler tick (lines 101-104): recomputes
currentTime = min (now - startTime) duration. -/
def tick (now : Rat) (s : PlayerState) : PlayerState :=
  { s with currentTime := min (now - s.startTime) s.duration }

/-- onended callback (lines 93-99): stops playing and the sampler; when
the elapsed real time reaches the duration, resets currentTime to 0. -/
def onEnded (now : Rat) (s : PlayerState) : PlayerState :=
  let s₁ := { s with isPlaying := false, timerOn := false }
  if now - s₁.startTime ≥ s₁.duration then { s₁ with currentTime := 0 } else s₁

/-- Loading a new buffer (effect at lines 56-79): the cleanup stops any
active source (whose onended clears isPlaying) and the sampler, then the
decoded buffer is stored with duration set and currentTime reset to 0. -/
def loadBuffer (d : Rat) (s : PlayerState) : PlayerState :=
  { s with
     buffer := some d
     duration := d
     currentTime := 0
     source := none
     timerOn := false
     isPlaying := false }

/-- The PlaybackState invariant of the spec. -/
def PlayerInv (s : PlayerState) : Prop :=
  0 ≤ s.currentTime ∧ s.currentTime ≤ s.duration ∧
  (s.isPlaying = true → s.source.isSome = true)

/-- A concrete mid-clip playing state used by the transport witnesses. -/
def playingExample : PlayerState :=
  { isPlaying := true
    duration := 10
    currentTime := 3
    buffer := some 10
    source := some 0
    startTime := 5
    timerOn := true }

/-- C7: pausing while playing retains currentTime, and a subsequent play
creates a source positioned at that retained offset (resuming from the
pause point, not from 0), recording the start instant now - currentTime. -/
theorem pause_then_play_resumes (s : PlayerState) (now : Rat)
    (hplay : s.isPlaying = true) (hsrc : s.source.isSome = true)
    (hbuf : s.buffer.isSome = true) :
    (pause s).currentTime = s.currentTime ∧
    (play now (pause s)).source = some s.currentTime ∧
    (play now (pause s)).startTime = now - s.currentTime ∧
    (play now (pause s)).isPlaying = true ∧
    (play now (pause s)).currentTime = s.currentTime := by
  obtain ⟨bv, hb⟩ := Option.isSome_iff_exists.1 hbuf
  obtain ⟨sv, hs⟩ := Option.isSome_iff_exists.1 hsrc
  refine ⟨?_, ?_, ?_, ?_, ?_⟩ <;> simp [pause, play, hplay, hb, hs]

/-- C7 witness: the example state playing at 3 seconds of a 10 second
clip pauses with currentTime 3 and resumes from offset 3 with
startTime 100 - 3. -/
theorem pause_then_play_resumes_witness :
    (playingExample.isPlaying = true ∧ playingExample.source.isSome = true ∧
      playingExample.buffer.isSome = true) ∧
    (pause playingExample).currentTime = playingExample.currentTime ∧
    (play 100 (pause playingExample)).source = some playingExample.currentTime ∧
    (play 100 (pause playingExample)).startTime = 100 - playingExample.currentTime ∧
    (play 100 (pause playingExample)).isPlaying = true ∧
    (play 100 (pause playingExample)).currentTime = playingExample.currentTime :=
  ⟨⟨rfl, rfl, rfl⟩, pause_then_play_resumes playingExample 100 rfl rfl rfl⟩

/-- C8: the invariant 0 <= currentTime <= duration together with
isPlaying implying an active source holds initially and is preserved by
play, pause, a sampler tick at any instant not before the recorded start,
and loading a buffer of nonnegative duration. -/
theorem playback_invariant_preserved (s : PlayerState) (now d : Rat)
    (h : PlayerInv s) :
    PlayerInv initialPlayerState ∧
    PlayerInv (play now s) ∧
    PlayerInv (pause s) ∧
    (s.startTime ≤ now → PlayerInv (tick now s)) ∧
    (0 ≤ d → PlayerInv (loadBuffer d s)) := by
  obtain ⟨h0, h1, h2⟩ := h
  refine ⟨⟨le_refl 0, le_refl 0, by simp [initialPlayerState]⟩, ?_, ?_, ?_, ?_⟩
  · unfold play PlayerInv
    by_cases hc : s.buffer = none ∨ s.isPlaying = true
    · rw [if_pos hc]
      exact ⟨h0, h1, h2⟩
    · rw [if_neg hc]
      exact ⟨h0, h1, by simp⟩
  · unfold pause PlayerInv
    by_cases hc : ¬ s.isPlaying = true ∨ s.source = none
    · rw [if_pos hc]
      exact ⟨h0, h1, h2⟩
    · rw [if_neg hc]
      exact ⟨h0, h1, by simp⟩
  · intro hnow
    have hd : 0 ≤ s.duration := le_trans h0 h1
    exact ⟨le_min (by linarith) hd, min_le_right _ _, h2⟩
  · intro hd
    exact ⟨le_refl 0, hd, by simp [loadBuffer]⟩

/-- C8 witness: the invariant holds for the example playing state and is
preserved by the four operations at now = 7 and loaded duration 2. -/
theorem playback_invariant_preserved_witness :
    PlayerInv playingExample ∧
    (PlayerInv initialPlayerState ∧
      PlayerInv (play 7 playingExample) ∧
      PlayerInv (pause playingExample) ∧
      (playingExample.startTime ≤ 7 → PlayerInv (tick 7 playingExample)) ∧
      ((0 : Rat) ≤ 2 → PlayerInv (loadBuffer 2 playingExample))) := by
  have hinv : PlayerInv playingExample := by
    refine ⟨by norm_num [playingExample], by norm_num [playingExample], by simp [playingExample]⟩
  exact ⟨hinv, playback_invariant_preserved playingExample 7 2 hinv⟩

/-! ## Themes, prompts and generation orchestrator
(src/App.tsx, lines 232-234 and 445-520)

The two Gemini calls are modelled by explicit parameters textGen and
speechGen returning Except results; Math.random times the catalog length,
floored, is modelled by the index rand. -/

/-- VISIBLE_THEMES (line 233): the theme buttons shown to the user,
including the sentinel Surpreenda-me. -/
def VISIBLE_THEMES : List String :=
  ["Perdão", "Fé", "Amor", "Gratidão", "Propósito", "Coragem", "Humildade", "Surpreenda-me"]

/-- ALL_THEMES (line 234): the visible themes without the sentinel,
extended with further themes. -/
def ALL_THEMES : List String :=
  VISIBLE_THEMES.filter (fun t => t != "Surpreenda-me") ++
  ["Esperança", "Superação", "Depressão", "Finanças", "Casamento", "Família", "Paciência", "Perseverança", "Confiança", "Sabedoria", "Transformação"]

/-- Theme resolution at the start of handleGenerateRevelation (lines
481-484): the sentinel is replaced by ALL_THEMES[rand] where rand is the
floored random index, always below the catalog length. -/
def finalThemeOf (theme : String) (rand : Nat) : String :=
  if theme = "Surpreenda-me" then ALL_THEMES.getD rand "" else theme

/-- Fixed text of the revelation prompt before the interpolated name. -/
def revelationPromptHead : String :=
  "Crie uma reflexão bíblica inspiradora e pessoal para "

/-- Fixed text of the revelation prompt between name and theme. -/
def revelationPromptMid : String := " sobre o tema \""

/-- Fixed text of the revelation prompt after the interpolated theme. -/
def revelationPromptTail : String :=
  "\". A mensagem deve ser calorosa, encorajadora, direta e ter no máximo 1 minuto de duração quando lida. Não inclua saudações como \"Olá\" ou \"Querido(a)\". Vá direto para a mensagem."

/-- The promptText template literal of handleGenerateRevelation
(line 486). -/
def revelationPrompt (name theme : String) : String :=
  revelationPromptHead ++ name ++ revelationPromptMid ++ theme ++ revelationPromptTail

/-- The promptText template literal of handleGeneratePrayer (line 509). -/
def prayerPrompt (theme name : String) : String :=
  "Com base na reflexão sobre \"" ++ theme ++ "\" para " ++ name ++ ", crie uma oração curta e inspiradora. A oração deve ter no máximo 1 minuto de duração quando lida."

/-- The generic user-facing message set on a revelation failure
(line 498). -/
def revelationErrorMsg : String := "Não foi possível gerar a revelação. Tente novamente."

/-- The generic user-facing message set on a prayer failure (line 516). -/
def prayerErrorMsg : String := "Não foi possível gerar a oração. Tente novamente."

/-- The revelation record assembled at line 492 and stored with keyPath
date in IndexedDB. -/
structure Revelation where
  date : String
  text : String
  audio : List Nat
  name : String
  theme : String
deriving DecidableEq

/-- The prayer record set at line 514 (kept in memory only). -/
structure Prayer where
  text : String
  audio : List Nat
deriving DecidableEq

/-- The App component state (lines 446-452) together with the IndexedDB
store of revelations (keyed by date). -/
structure AppState where
  revelation : Option Revelation
  prayer : Option Prayer
  isLoading : Bool
  isLoadingPrayer : Bool
  error : String
  playRevelationOnLoad : Bool
  db : List Revelation
deriving DecidableEq

/-- saveRevelationToDB (lines 20-23): an IndexedDB put upserts by the
keyPath date. -/
def saveRevelationToDB (db : List Revelation) (r : Revelation) : List Revelation :=
  if db.any (fun x => x.date == r.date) then
    db.map (fun x => if x.date == r.date then r else x)
  else db ++ [r]

/-- The initial App state: nothing loaded, no error. -/
def initialAppState : AppState :=
  { revelation := none
    prayer := none
    isLoading := false
    isLoadingPrayer := false
    error := ""
    playRevelationOnLoad := false
    db := [] }

/-- handleGenerateRevelation (lines 476-502): set the busy flag, clear
the error and the prayer, resolve the sentinel theme, request the text
for the prompt, then the speech for that text; on success assemble the
record, store it, persist it and schedule autoplay; on any failure set
the generic revelation error; finally clear the busy flag. -/
def handleGenerateRevelation (today name theme : String) (rand : Nat)
    (textGen : String → Except Unit String)
    (speechGen : String → Except Unit (List Nat)) (s : AppState) : AppState :=
  let s₁ := { s with isLoading := true, error := "", prayer := none }
  let finalTheme := finalThemeOf theme rand
  match textGen (revelationPrompt name finalTheme) with
  | Except.error _ => { s₁ with error := revelationErrorMsg, isLoading := false }
  | Except.ok text =>
    match speechGen text with
    | Except.error _ => { s₁ with error := revelationErrorMsg, isLoading := false }
    | Except.ok audio =>
      let newRevelation : Revelation :=
        { date := today, text := text, audio := audio, name := name, theme := finalTheme }
      { s₁ with
         revelation := some newRevelation
         db := saveRevelationToDB s₁.db newRevelation
         playRevelationOnLoad := true
         isLoading := false }

/-- handleGeneratePrayer (lines 504-520): no-op without a revelation;
otherwise set the prayer busy flag, clear the error, request text then
speech for the prayer prompt built from the stored theme and name; on
success attach the prayer in memory, on failure set the generic prayer
error; finally clear the prayer busy flag. -/
def handleGeneratePrayer (textGen : String → Except Unit String)
    (speechGen : String → Except Unit (List Nat)) (s : AppState) : AppState :=
  match s.revelation with
  | none => s
  | some rev =>
    let s₁ := { s with isLoadingPrayer := true, error := "" }
    match textGen (prayerPrompt rev.theme rev.name) with
    | Except.error _ => { s₁ with error := prayerErrorMsg, isLoadingPrayer := false }
    | Except.ok text =>
      match speechGen text with
      | Except.error _ => { s₁ with error := prayerErrorMsg, isLoadingPrayer := false }
      | Except.ok audio =>
        { s₁ with prayer := some { text := text, audio := audio }, isLoadingPrayer := false }

/-- C5: when text generation succeeds and speech synthesis fails, the
handler leaves the state unchanged except that the prayer is cleared, the
busy flag ends false and the generic revelation error is surfaced: in
particular the store of records is untouched (no partial write) and the
generated text is discarded. -/
theorem speech_failure_no_persist (today name theme : String) (rand : Nat)
    (textGen : String → Except Unit String)
    (speechGen : String → Except Unit (List Nat)) (s : AppState) (t : String)
    (htext : textGen (revelationPrompt name (finalThemeOf theme rand)) = Except.ok t)
    (haudio : speechGen t = Except.error ()) :
    handleGenerateRevelation today name theme rand textGen speechGen s
      = { s with prayer := none, isLoading := false, error := revelationErrorMsg } := by
  simp only [handleGenerateRevelation, htext, haudio]

/-- C5 witness: with a constant successful text capability and a failing
speech capability, a run from the initial state persists nothing and
surfaces the generic revelation error. -/
theorem speech_failure_no_persist_witness :
    ((fun _ : String => Except.ok (ε := Unit) "texto")
        (revelationPrompt "Maria" (finalThemeOf "Fé" 0)) = Except.ok "texto" ∧
      (fun _ : String => Except.error (α := List Nat) ()) "texto" = Except.error ()) ∧
    handleGenerateRevelation "01/01/2025" "Maria" "Fé" 0
        (fun _ => Except.ok "texto") (fun _ => Except.error ()) initialAppState
      = { initialAppState with
           prayer := none
           isLoading := false
           error := revelationErrorMsg } :=
  ⟨⟨rfl, rfl⟩, speech_failure_no_persist "01/01/2025" "Maria" "Fé" 0
    (fun _ => Except.ok "texto") (fun _ => Except.error ()) initialAppState "texto" rfl rfl⟩

/-- C10: every run of handleGenerateRevelation, successful or failed,
ends with no prayer: the prayer is reset before the capabilities are
contacted and never restored, so a prayer generated for a previous
revelation is never retained. -/
theorem generateRevelation_resets_prayer (today name theme : String) (rand : Nat)
    (textGen : String → Except Unit String)
    (speechGen : String → Except Unit (List Nat)) (s : AppState) :
    (handleGenerateRevelation today name theme rand textGen speechGen s).prayer = none := by
  cases htg : textGen (revelationPrompt name (finalThemeOf theme rand)) with
  | error e => simp [handleGenerateRevelation, htg]
  | ok t =>
    cases hsg : speechGen t with
    | error e => simp [handleGenerateRevelation, htg, hsg]
    | ok a => simp [handleGenerateRevelation, htg, hsg]

/-- C6 counterexample: the sentinel is in the visible list but not in the
catalog, so the catalog is not a superset of the user-visible theme list;
and a user whose typed name is the sentinel string produces a sent prompt
containing the literal sentinel. -/
theorem sentinel_in_prompt_counterexample :
    ("Surpreenda-me" ∈ VISIBLE_THEMES ∧ "Surpreenda-me" ∉ ALL_THEMES) ∧
    List.IsInfix ("Surpreenda-me").data
      (revelationPrompt "Surpreenda-me" (finalThemeOf "Surpreenda-me" 0)).data := by
  refine ⟨⟨by decide, by decide⟩, ?_⟩
  decide

/-- C6 amended: a call with the sentinel theme resolves it, before the
prompt is built, to ALL_THEMES[rand], which is always a catalog element
and never the sentinel (the sentinel is not even a substring of any
catalog theme); the catalog contains every user-visible theme other than
the sentinel option itself; the prompt embeds the user name and the
resolved theme, so the sentinel can reach a prompt only through the
user-supplied name. -/
theorem sentinel_resolution_spec (name : String) (r : Nat)
    (hr : r < ALL_THEMES.length) :
    finalThemeOf "Surpreenda-me" r = ALL_THEMES.getD r "" ∧
    finalThemeOf "Surpreenda-me" r ∈ ALL_THEMES ∧
    finalThemeOf "Surpreenda-me" r ≠ "Surpreenda-me" ∧
    ¬ List.IsInfix ("Surpreenda-me").data (finalThemeOf "Surpreenda-me" r).data ∧
    (∀ t ∈ VISIBLE_THEMES, t ≠ "Surpreenda-me" → t ∈ ALL_THEMES) ∧
    revelationPrompt name (finalThemeOf "Surpreenda-me" r)
      = revelationPromptHead ++ name ++ revelationPromptMid ++
        finalThemeOf "Surpreenda-me" r ++ revelationPromptTail := by
  have hftv : finalThemeOf "Surpreenda-me" r = ALL_THEMES.getD r "" := by
    simp [finalThemeOf]
  have hmem : ALL_THEMES.getD r "" ∈ ALL_THEMES := by
    rw [List.getD_eq_getElem _ _ hr]
    exact List.getElem_mem hr
  have hall : ∀ t ∈ ALL_THEMES,
      t ≠ "Surpreenda-me" ∧ ¬ List.IsInfix ("Surpreenda-me").data t.data := by
    decide
  refine ⟨hftv, ?_, ?_, ?_, by decide, rfl⟩
  · rw [hftv]; exact hmem
  · rw [hftv]; exact (hall _ hmem).1
  · rw [hftv]; exact (hall _ hmem).2

/-- C6 witness: with rand = 0 the sentinel resolves to the first catalog
theme Perdão. -/
theorem sentinel_resolution_spec_witness :
    0 < ALL_THEMES.length ∧
    (finalThemeOf "Surpreenda-me" 0 = ALL_THEMES.getD 0 "" ∧
      finalThemeOf "Surpreenda-me" 0 ∈ ALL_THEMES ∧
      finalThemeOf "Surpreenda-me" 0 ≠ "Surpreenda-me" ∧
      ¬ List.IsInfix ("Surpreenda-me").data (finalThemeOf "Surpreenda-me" 0).data ∧
      (∀ t ∈ VISIBLE_THEMES, t ≠ "Surpreenda-me" → t ∈ ALL_THEMES) ∧
      revelationPrompt "Maria" (finalThemeOf "Surpreenda-me" 0)
        = revelationPromptHead ++ "Maria" ++ revelationPromptMid ++
          finalThemeOf "Surpreenda-me" 0 ++ revelationPromptTail) ∧
    finalThemeOf "Surpreenda-me" 0 = "Perdão" :=
  ⟨by decide, sentinel_resolution_spec "Maria" 0 (by decide), by decide⟩

/-- An example stored revelation used by the error-slot theorems. -/
def revelationExample : Revelation :=
  { date := "01/01/2025", text := "texto", audio := [], name := "Maria", theme := "Fé" }

/-- An App state in which the generic revelation error is currently
surfaced and a revelation exists. -/
def stateWithRevelationError : AppState :=
  { revelation := some revelationExample
    prayer := none
    isLoading := false
    isLoadingPrayer := false
    error := revelationErrorMsg
    playRevelationOnLoad := false
    db := [revelationExample] }

/-- C9 counterexample: the App holds a single shared error slot. From a
state whose surfaced error is the revelation message, a failing prayer
generation overwrites it with the prayer message, and a successful prayer
generation clears it; either way the revelation error is lost. -/
theorem shared_error_slot_counterexample :
    stateWithRevelationError.error = revelationErrorMsg ∧
    (handleGeneratePrayer (fun _ => Except.error ()) (fun _ => Except.error ())
        stateWithRevelationError).error = prayerErrorMsg ∧
    (handleGeneratePrayer (fun _ => Except.ok "oracao") (fun _ => Except.ok [])
        stateWithRevelationError).error = "" ∧
    prayerErrorMsg ≠ revelationErrorMsg := by
  refine ⟨rfl, rfl, rfl, by decide⟩

/-- C9 amended: each operation surfaces one fixed generic message (the
revelation message or the prayer message, which differ), but both write
the single shared error slot: after a revelation run the slot holds empty
or the revelation message, and after a prayer run it holds the previous
value (no revelation present), empty, or the prayer message. -/
theorem error_message_per_operation (today name theme : String) (rand : Nat)
    (textGen : String → Except Unit String)
    (speechGen : String → Except Unit (List Nat)) (s : AppState) :
    ((handleGenerateRevelation today name theme rand textGen speechGen s).error = "" ∨
      (handleGenerateRevelation today name theme rand textGen speechGen s).error
        = revelationErrorMsg) ∧
    ((handleGeneratePrayer textGen speechGen s).error = s.error ∨
      (handleGeneratePrayer textGen speechGen s).error = "" ∨
      (handleGeneratePrayer textGen speechGen s).error = prayerErrorMsg) ∧
    revelationErrorMsg ≠ prayerErrorMsg := by
  refine ⟨?_, ?_, by decide⟩
  · cases htg : textGen (revelationPrompt name (finalThemeOf theme rand)) with
    | error e => right; simp [handleGenerateRevelation, htg]
    | ok t =>
      cases hsg : speechGen t with
      | error e => right; simp [handleGenerateRevelation, htg, hsg]
      | ok a => left; simp [handleGenerateRevelation, htg, hsg]
  · cases hrev : s.revelation with
    | none => left; simp [handleGeneratePrayer, hrev]
    | some rev =>
      cases htg : textGen (prayerPrompt rev.theme rev.name) with
      | error e => right; right; simp [handleGeneratePrayer, hrev, htg]
      | ok t =>
        cases hsg : speechGen t with
        | error e => right; right; simp [handleGeneratePrayer, hrev, htg, hsg]
        | ok a => right; left; simp [handleGeneratePrayer, hrev, htg, hsg]

end RevelacaoDeHoje
